import Mathlib

/-!
Shallow embedding of the gas-range reduction-rate dashboard (`src/app.py`).

The dashboard loads a spreadsheet of monthly gas-range counts (plus, in the
newer schema, total billed-meter counts, connected-meter counts and measured
consumption), aggregates them, and derives
  * a district×year decrease pivot (`build_map_table_cached`, lines 371-418),
  * a geometry join key per district (`load_geojson` lines 336-365 and
    `_attach_geo_key` lines 421-436),
  * an induction-adoption / usage-decline estimation table
    (lines 1100-1161 and 1562-1597).

Dataframes are modelled as lists of records; pandas NaN-able numeric columns
are modelled as `Option` fields, and the skip-NaN column sums of
`groupby(...).sum()` as sums over `filterMap`.
-/

namespace GasApp

/-- The fixed target-district list `TARGET_SIGUNGU` (src/app.py lines 66-70). -/
def TARGET_SIGUNGU : List String :=
  ["중구", "동구", "서구", "남구", "북구", "수성구", "달서구", "달성군", "경산시"]

/-- The Python substring test `needle in hay` on strings. -/
def strContains (hay needle : String) : Bool :=
  decide (needle.data <:+: hay.data)

/-- One record of the usage dataframe produced by `load_data_with_usage`
(src/app.py lines 126-330).  `totalCnt` is the `전체청구전수` column,
`connCnt` the `가스렌지연결_청구전수` column and `usageAmt` the `사용량_기준`
column; `none` models a pandas NaN cell (the v2 loader fills `connCnt`
with NaN at line 325, and `usageAmt`/`totalCnt` are NaN when the source file
lacks the column, lines 317 and 322). -/
structure URow where
  year : Nat
  district : String
  usage : String
  product : String
  rangeCnt : Int
  totalCnt : Option Int
  connCnt : Option Int
  usageAmt : Option ℚ
deriving DecidableEq

/-- `가스레인지수합`: groupby sum of the gas-range count over one
aggregation slice (src/app.py lines 1101-1105). -/
def sumRange (rs : List URow) : Int :=
  (rs.map URow.rangeCnt).sum

/-- `전체청구전수합`: skip-NaN groupby sum of the total billed-meter count
over one aggregation slice (src/app.py lines 1101-1105). -/
def sumTotal (rs : List URow) : Int :=
  (rs.filterMap URow.totalCnt).sum

/-- `가스렌지연결_청구전수합`: skip-NaN groupby sum of the connected-meter
count over one aggregation slice (src/app.py lines 1106-1108); an all-NaN
column sums to 0. -/
def sumConn (rs : List URow) : Int :=
  (rs.filterMap URow.connCnt).sum

/-- `사용량합`: skip-NaN groupby sum of the consumption column over one
aggregation slice (src/app.py lines 1101-1105). -/
def sumUsage (rs : List URow) : ℚ :=
  (rs.filterMap URow.usageAmt).sum

/-- The un-clamped induction estimate (src/app.py lines 1117-1125 and
1575-1582).  `hasConnCol` models the column-presence test
`"가스렌지연결_청구전수합" in year_agg.columns`, which holds exactly when the
`가스렌지연결_청구전수` column exists in the loaded dataframe. -/
def baseInduction (hasConnCol : Bool) (rs : List URow) : Int :=
  if hasConnCol then sumTotal rs - sumConn rs else sumTotal rs - sumRange rs

/-- `추정_인덕션세대수 = base_induction.clip(lower=0)` (src/app.py lines 1126
and 1584). -/
def estInduction (hasConnCol : Bool) (rs : List URow) : Int :=
  max (baseInduction hasConnCol rs) 0

/-- `가스레인지당_평균사용량 = np.where(가스레인지수합 > 0, 사용량합/가스레인지수합, nan)`
(src/app.py lines 1138-1142 and 1586-1590); `none` models NaN. -/
def avgPerRange (rs : List URow) : Option ℚ :=
  if 0 < sumRange rs then some (sumUsage rs / (sumRange rs : ℚ)) else none

/-- `전세대_가정사용량 = 가스레인지당_평균사용량 × 전체청구전수합`
(src/app.py lines 1145-1148 and 1591-1593); NaN propagates. -/
def allGasUsage (rs : List URow) : Option ℚ :=
  (avgPerRange rs).map (fun a => a * (sumTotal rs : ℚ))

/-- `추정_사용량감소 = (전세대_가정사용량 − 사용량합).clip(lower=0)`
(src/app.py lines 1151-1154 and 1594-1597); `clip` leaves NaN as NaN. -/
def estDecline (rs : List URow) : Option ℚ :=
  (allGasUsage rs).map (fun h => max (h - sumUsage rs) 0)

/-- Modelled from the spec (§4.2.4): the estimation denominator is the
connected-meter sum when that field is present and non-null for any row in
scope, else the appliance-count sum. -/
def spec_denominator (rs : List URow) : Int :=
  if rs.any (fun r => r.connCnt.isSome) then sumConn rs else sumRange rs

/-- Modelled from the spec (§4.2.4):
`estimated_non_gas_units = max(total_meter_count − denominator, 0)`. -/
def spec_est_non_gas (rs : List URow) : Int :=
  max (sumTotal rs - spec_denominator rs) 0

/-- Modelled from the spec (§4.2.4): `gas_unit_average_consumption =
consumption_sum / (total_meter_count − estimated_non_gas_units)` when the
divisor is positive, else undefined. -/
def spec_gas_unit_avg (hasConnCol : Bool) (rs : List URow) : Option ℚ :=
  if 0 < sumTotal rs - estInduction hasConnCol rs then
    some (sumUsage rs / ((sumTotal rs - estInduction hasConnCol rs : Int) : ℚ))
  else none

/-- Round half to even at integer precision, the rounding used by the
dataframe library `round` method. -/
def roundHalfEven (x : ℚ) : ℤ :=
  if x - ⌊x⌋ < 1/2 then ⌊x⌋
  else if 1/2 < x - ⌊x⌋ then ⌊x⌋ + 1
  else if ⌊x⌋ % 2 = 0 then ⌊x⌋ else ⌊x⌋ + 1

/-- `Series.round(1)`: round to one decimal place. -/
def round1 (x : ℚ) : ℚ :=
  (roundHalfEven (x * 10) : ℚ) / 10

/-- One record of the analysis-1 dataframe produced by `load_data`
(src/app.py lines 87-117). -/
structure RRow where
  year : Nat
  month : Nat
  usage : String
  product : String
  district : String
  rangeCnt : Int
deriving DecidableEq

/-- The first three filters of `build_map_table_cached` (src/app.py lines
377-380): usage selection, product selection, restriction to
`TARGET_SIGUNGU`. -/
def dfMapFiltered (rows : List RRow) (usageSel productSel : List String) :
    List RRow :=
  ((rows.filter (fun r => usageSel.contains r.usage)).filter
      (fun r => productSel.contains r.product)).filter
      (fun r => TARGET_SIGUNGU.contains r.district)

/-- The year restriction of `build_map_table_cached` (src/app.py line 382):
keep only rows of the base or compare year. -/
def mapFiltered (rows : List RRow) (usageSel productSel : List String)
    (baseY compY : Nat) : List RRow :=
  (dfMapFiltered rows usageSel productSel).filter
    (fun r => r.year == baseY || r.year == compY)

/-- One cell of the `grouped`/`pivot_map` table: the gas-range count summed
over the rows of one (district, year) pair, 0 when the pair is absent
(src/app.py lines 386-401, `groupby(...).sum()` + `pivot` + `fillna(0)`). -/
def districtYearSum (rs : List RRow) (d : String) (y : Nat) : Int :=
  ((rs.filter (fun r => r.district == d && r.year == y)).map RRow.rangeCnt).sum

/-- One row of the `map_table` returned by `build_map_table_cached`. -/
structure MapRow where
  sigungu : String
  baseVal : Int
  compVal : Int
  decAmt : Int
  decRate : Option ℚ
deriving DecidableEq

/-- `build_map_table_cached` (src/app.py lines 371-418): empty result when no
row survives the filters (line 383-384), otherwise one row per target
district in `TARGET_SIGUNGU` order (`reindex`, line 394) with
`감소량(기준-비교) = base − compare` (line 403) and
`감소율(%) = round(감소량/base × 100, 1)` when `base > 0`, NaN otherwise
(lines 404-409). -/
def build_map_table (rows : List RRow) (usageSel productSel : List String)
    (baseY compY : Nat) : List MapRow :=
  let mapDf := mapFiltered rows usageSel productSel baseY compY
  if mapDf.isEmpty then []
  else
    TARGET_SIGUNGU.map (fun d =>
      let b := districtYearSum mapDf d baseY
      let c := districtYearSum mapDf d compY
      { sigungu := d, baseVal := b, compVal := c, decAmt := b - c,
        decRate := if 0 < b then some (round1 (((b - c : Int) : ℚ) / (b : ℚ) * 100))
                   else none })

/-- The call site of `build_map_table_cached` (src/app.py lines 932-938): the
map tab passes the unfiltered `df_raw` together with the usage and product
selections; the active district selection `districtSel` is in scope (sidebar,
lines 585-589) but not passed. -/
def map_table_at_call_site (dfRaw : List RRow)
    (usageSel productSel districtSel : List String)
    (baseY compY : Nat) : List MapRow :=
  build_map_table dfRaw usageSel productSel baseY compY

/-- The inner `find_geo_name` of `_attach_geo_key` (src/app.py lines
429-433): the first GeoJSON feature value that contains the district name as
a substring, else the district name itself. -/
def find_geo_name (geoNames : List String) (d : String) : String :=
  match geoNames.find? (fun name => strContains name d) with
  | some name => name
  | none => d

/-- Modelled from the spec (§4.2.3): exact match first, then the first
feature value related to the district name by substring containment in
either direction, then the district name itself. -/
def spec_resolve_geo (geoNames : List String) (d : String) : String :=
  match geoNames.find? (fun name => name == d) with
  | some name => name
  | none =>
    match geoNames.find? (fun name => strContains name d || strContains d name) with
    | some name => name
    | none => d

/-- `features[0]["properties"].get(key, "")`-style lookup: a feature property bag is a key-value list in declaration order (src/app.py line 356). -/
def propGet (props : List (String × String)) (k : String) : String :=
  match props.find? (fun p => p.1 == k) with
  | some p => p.2
  | none => ""

/-- The score `load_geojson` assigns to a candidate property key: the number
of target districts appearing as a substring of at least one feature value
for that key (src/app.py lines 356-360). -/
def keyScore (feats : List (List (String × String))) (k : String) : Nat :=
  (TARGET_SIGUNGU.filter (fun d => feats.any (fun f => strContains (propGet f k) d))).length

/-- The best-field fold of `load_geojson` (src/app.py lines 351-363):
starting from `best_field = None, best_score = -1`, replace the best pair
whenever the score of a key strictly exceeds the best score. -/
def selectBest (feats : List (List (String × String))) (keys : List String) :
    Option String × Int :=
  keys.foldl
    (fun acc k =>
      if (keyScore feats k : Int) > acc.2 then (some k, (keyScore feats k : Int)) else acc)
    (none, -1)

/-- The selected property key of `load_geojson` (src/app.py lines 345-365): `none`
when there are no features, else the fold over the property keys of the first feature in declaration order. -/
def bestField (feats : List (List (String × String))) : Option String :=
  match feats with
  | [] => none
  | f0 :: _ => (selectBest feats (f0.map Prod.fst)).1

/-- `str.strip()` on the character list of a string. -/
def stripChars (cs : List Char) : List Char :=
  ((cs.dropWhile Char.isWhitespace).reverse.dropWhile Char.isWhitespace).reverse

/-- `int(...)` on a string of decimal digits: left fold multiply-by-ten. -/
def digitsToNat (cs : List Char) : Nat :=
  cs.foldl (fun acc c => acc * 10 + (c.toNat - 48)) 0

/-- The period parsing of `load_data` (src/app.py lines 106-108):
`strip` the code, then year = first 4 characters as an integer and
month = characters 4..6 as an integer. -/
def parse_period (s : String) : Nat × Nat :=
  (digitsToNat ((stripChars s.data).take 4),
   digitsToNat (((stripChars s.data).drop 4).take 2))

/-! ### Concrete inputs used by witnesses and counterexamples -/

/-- A row as the v2 loader shapes it: the `가스렌지연결_청구전수` column is
materialised but NaN (src/app.py line 325). -/
def v2row : URow := ⟨2024, "중구", "단독주택", "취사용", 700, some 1000, none, none⟩

/-- A row as the v3 loader shapes it: connected-meter count present. -/
def v3row : URow := ⟨2024, "중구", "단독주택", "취사용", 650, some 1000, some 700, none⟩

/-- A v3-shaped row with consumption, for the average-consumption claims. -/
def consRow : URow := ⟨2024, "중구", "단독주택", "취사용", 650, some 1000, some 700, some 1400⟩

/-- A slice on which the all-gas hypothetical is below the measured
consumption, so the un-clamped decline estimate would be negative. -/
def negRow : URow := ⟨2024, "중구", "단독주택", "취사용", 10, some 5, some 5, some 100⟩

/-- Analysis-1 rows: 중구 has 3 ranges in 2015 and 1 in 2024. -/
def rowsA : List RRow :=
  [⟨2015, 1, "단독주택", "취사용", "중구", 3⟩,
   ⟨2024, 1, "단독주택", "취사용", "중구", 1⟩]

/-- Analysis-1 rows: 중구 has 1000 ranges in 2015 and 400 in 2024. -/
def rowsW : List RRow :=
  [⟨2015, 1, "단독주택", "취사용", "중구", 1000⟩,
   ⟨2024, 1, "단독주택", "취사용", "중구", 400⟩]

/-- A single analysis-1 row in a year distinct from any base/compare pair
used with it. -/
def rowsOff : List RRow := [⟨2020, 1, "단독주택", "취사용", "중구", 5⟩]

/-- A two-feature GeoJSON property table: an `id` key that matches no
district and a `name` key whose values contain the district names. -/
def featsW : List (List (String × String)) :=
  [[("id", "1"), ("name", "중구 ")], [("id", "2"), ("name", "동구")]]

/-! ### Helper lemmas -/

/-- A successful `find?` splits its list at the first hit. -/
theorem find_split {α : Type _} (p : α → Bool) :
    ∀ (l : List α) (x : α), l.find? p = some x →
      ∃ pre post, l = pre ++ x :: post ∧ p x = true ∧ ∀ m ∈ pre, p m = false := by
  intro l
  induction l with
  | nil => intro x h; simp [List.find?] at h
  | cons a l ih =>
    intro x h
    by_cases ha : p a = true
    · rw [List.find?_cons_of_pos _ ha] at h
      obtain rfl : a = x := by injection h
      exact ⟨[], l, rfl, ha, by simp⟩
    · have ha' : p a = false := by simpa using ha
      rw [List.find?_cons_of_neg _ (by simp [ha'])] at h
      obtain ⟨pre, post, rfl, hx, hpre⟩ := ih x h
      refine ⟨a :: pre, post, rfl, hx, ?_⟩
      intro m hm
      rcases List.mem_cons.mp hm with rfl | hm
      · exact ha'
      · exact hpre m hm

/-- On a non-empty filter result the map table is the target-district map. -/
theorem build_map_table_of_ne_nil (rows : List RRow)
    (usageSel productSel : List String) (baseY compY : Nat)
    (h : mapFiltered rows usageSel productSel baseY compY ≠ []) :
    build_map_table rows usageSel productSel baseY compY =
      TARGET_SIGUNGU.map (fun d =>
        let b := districtYearSum (mapFiltered rows usageSel productSel baseY compY) d baseY
        let c := districtYearSum (mapFiltered rows usageSel productSel baseY compY) d compY
        { sigungu := d, baseVal := b, compVal := c, decAmt := b - c,
          decRate := if 0 < b then some (round1 (((b - c : Int) : ℚ) / (b : ℚ) * 100))
                     else none }) := by
  have hne : (mapFiltered rows usageSel productSel baseY compY).isEmpty = false := by
    simpa [List.isEmpty_iff] using h
  simp [build_map_table, hne]

/-- The row labels of a non-empty map table are exactly `TARGET_SIGUNGU`,
in order. -/
theorem build_map_table_sigungu (rows : List RRow)
    (usageSel productSel : List String) (baseY compY : Nat)
    (h : mapFiltered rows usageSel productSel baseY compY ≠ []) :
    (build_map_table rows usageSel productSel baseY compY).map MapRow.sigungu =
      TARGET_SIGUNGU := by
  rw [build_map_table_of_ne_nil rows usageSel productSel baseY compY h]
  rw [List.map_map]
  have : (MapRow.sigungu ∘ fun d =>
      let b := districtYearSum (mapFiltered rows usageSel productSel baseY compY) d baseY
      let c := districtYearSum (mapFiltered rows usageSel productSel baseY compY) d compY
      ({ sigungu := d, baseVal := b, compVal := c, decAmt := b - c,
         decRate := if 0 < b then some (round1 (((b - c : Int) : ℚ) / (b : ℚ) * 100))
                    else none } : MapRow)) = id := by
    funext d
    rfl
  rw [this, List.map_id]

/-- Membership in a non-empty map table: each row is the computed row of its
district. -/
theorem mem_build_map_table (rows : List RRow)
    (usageSel productSel : List String) (baseY compY : Nat) (mr : MapRow)
    (hmr : mr ∈ build_map_table rows usageSel productSel baseY compY) :
    mr.baseVal = districtYearSum (mapFiltered rows usageSel productSel baseY compY)
        mr.sigungu baseY ∧
    mr.compVal = districtYearSum (mapFiltered rows usageSel productSel baseY compY)
        mr.sigungu compY ∧
    mr.decAmt = mr.baseVal - mr.compVal ∧
    mr.decRate = (if 0 < mr.baseVal then
        some (round1 (((mr.baseVal - mr.compVal : Int) : ℚ) / (mr.baseVal : ℚ) * 100))
      else none) := by
  by_cases hemp : mapFiltered rows usageSel productSel baseY compY = []
  · rw [build_map_table, hemp] at hmr
    simp at hmr
  · rw [build_map_table_of_ne_nil rows usageSel productSel baseY compY hemp] at hmr
    obtain ⟨d, _, rfl⟩ := List.mem_map.mp hmr
    exact ⟨rfl, rfl, rfl, rfl⟩

/-- A summed (district, year) cell over rows none of which carry the year
is zero. -/
theorem districtYearSum_eq_zero (rs : List RRow) (d : String) (y : Nat)
    (h : ∀ r ∈ rs, r.year ≠ y) : districtYearSum rs d y = 0 := by
  unfold districtYearSum
  have : rs.filter (fun r => r.district == d && r.year == y) = [] := by
    apply List.filter_eq_nil_iff.mpr
    intro r hr
    simp [h r hr]
  rw [this]
  rfl

/-! ### Claims -/

/-- C1: the adoption-estimation denominator.  On v3-shaped data (connected
count present) the code agrees with the spec: 1000 total, 700 connected gives
300 estimated non-gas units.  But on v2-shaped data the loader materialises the
connected column as all-NaN (line 325), so the column-presence test at line
1117 still selects the connected branch, the all-NaN column sums to 0, and the
code yields 1000 instead of the 300 that the appliance-count fallback of the spec — and
the docstring of the loader (lines 133-134) and the comment at line 1122 —
prescribe; the fallback branch at lines 1121-1125 is unreachable. -/
theorem induction_estimate_v2_fallback_dead :
    estInduction true [v3row] = 300 ∧ spec_est_non_gas [v3row] = 300 ∧
    estInduction true [v2row] = 1000 ∧ spec_est_non_gas [v2row] = 300 ∧
    estInduction true [v2row] ≠ spec_est_non_gas [v2row] := by
  decide

/-- C2 (counterexample): the claim says the per-unit average consumption
divides by `total_meter_count − estimated_non_gas_units`; the code (lines
1138-1142, 1586-1590) divides by the appliance-count sum `가스레인지수합`.
With 650 appliances, 1000 total meters, 700 connected meters and consumption
1400 the code yields 1400/650 = 28/13 while the claimed formula yields
1400/700 = 2. -/
theorem gas_unit_avg_divergence_cex :
    avgPerRange [consRow] = some (28/13) ∧
    spec_gas_unit_avg true [consRow] = some 2 ∧
    avgPerRange [consRow] ≠ spec_gas_unit_avg true [consRow] := by
  refine ⟨?_, ?_, ?_⟩
  · simp [avgPerRange, sumRange, sumUsage, consRow]
    norm_num
  · have h1 : estInduction true [consRow] = 300 := by decide
    have h2 : sumTotal [consRow] = 1000 := by decide
    rw [spec_gas_unit_avg, h1, h2]
    norm_num
    simp [sumUsage, consRow]
    norm_num
  · intro h
    have h1 : avgPerRange [consRow] = some (28/13) := by
      simp [avgPerRange, sumRange, sumUsage, consRow]
      norm_num
    have h2 : estInduction true [consRow] = 300 := by decide
    have h3 : sumTotal [consRow] = 1000 := by decide
    rw [h1, spec_gas_unit_avg, h2, h3] at h
    norm_num at h
    simp [sumUsage, consRow] at h
    norm_num at h

/-- C2 (amended): for every aggregation slice, the per-unit average
consumption equals the consumption sum divided by the appliance-count sum
`가스레인지수합` whenever that sum is positive, and is undefined (NaN, not a
crash) otherwise. -/
theorem gas_unit_avg_by_range_count (rs : List URow) :
    (0 < sumRange rs → avgPerRange rs = some (sumUsage rs / (sumRange rs : ℚ))) ∧
    (sumRange rs ≤ 0 → avgPerRange rs = none) := by
  constructor
  · intro h
    simp [avgPerRange, h]
  · intro h
    simp [avgPerRange, not_lt.mpr h]

/-- Witness for `gas_unit_avg_by_range_count` at a concrete slice. -/
theorem gas_unit_avg_by_range_count_w :
    (0 < sumRange [consRow]) ∧
    avgPerRange [consRow] = some (sumUsage [consRow] / (sumRange [consRow] : ℚ)) :=
  ⟨by decide, (gas_unit_avg_by_range_count [consRow]).1 (by decide)⟩

/-- C3 (counterexample): geo-key resolution as claimed prefers an exact
match and also accepts reverse containment; the function `find_geo_name` of the code
(lines 429-433) only takes the first feature value containing the district
name.  With feature values `["AB", "B"]` and district `"B"` the code returns
`"AB"` although the exact match `"B"` exists; with feature values `["A"]` and
district `"AB"` the code falls back to `"AB"` although `"A"` is contained in
the district name. -/
theorem geo_key_no_exact_priority_cex :
    find_geo_name ["AB", "B"] "B" = "AB" ∧
    spec_resolve_geo ["AB", "B"] "B" = "B" ∧
    find_geo_name ["A"] "AB" = "AB" ∧
    spec_resolve_geo ["A"] "AB" = "A" ∧
    find_geo_name ["AB", "B"] "B" ≠ spec_resolve_geo ["AB", "B"] "B" := by
  decide

/-- C3 (amended): geo-key resolution returns the first feature value that
contains the district name as a substring when one exists (with no separate
exact-match stage and no reverse containment), and otherwise the district
name itself; in particular with feature values `["중구 ", "동구"]` (trailing
space) both `"중구"` and `"동구"` resolve via substring containment even
though exact equality fails for `"중구"`. -/
theorem geo_key_first_containment :
    (∀ (geoNames : List String) (d : String),
        (∃ pre post, geoNames = pre ++ (find_geo_name geoNames d) :: post ∧
            strContains (find_geo_name geoNames d) d = true ∧
            ∀ m ∈ pre, strContains m d = false) ∨
        (find_geo_name geoNames d = d ∧ ∀ n ∈ geoNames, strContains n d = false)) ∧
    find_geo_name ["중구 ", "동구"] "중구" = "중구 " ∧
    find_geo_name ["중구 ", "동구"] "동구" = "동구" := by
  refine ⟨?_, by decide, by decide⟩
  intro geoNames d
  cases h : geoNames.find? (fun name => strContains name d) with
  | none =>
    right
    have hval : find_geo_name geoNames d = d := by
      simp [find_geo_name, h]
    refine ⟨hval, ?_⟩
    intro n hn
    have := List.find?_eq_none.mp h n hn
    simpa using this
  | some n =>
    left
    have hval : find_geo_name geoNames d = n := by
      simp [find_geo_name, h]
    obtain ⟨pre, post, heq, hx, hpre⟩ := find_split _ geoNames n h
    exact ⟨pre, post, by rw [hval, heq], by rw [hval]; exact hx, hpre⟩

/-- Witness for `geo_key_first_containment`: the trailing-space scenario. -/
theorem geo_key_first_containment_w :
    find_geo_name ["중구 ", "동구"] "중구" = "중구 " :=
  geo_key_first_containment.2.1

/-- C4: when some record survives the filters for the base/compare years,
the district decrease pivot has one row per district of the fixed target list,
in that order; each row satisfies `decrease_amount = base_value − compare_value`
with both values the (district, year) sums over the filtered data; and a year
entirely absent from the filtered data contributes 0 to every district rather
than an error. -/
theorem map_pivot_decrease_and_order (rows : List RRow)
    (usageSel productSel : List String) (baseY compY : Nat)
    (h : mapFiltered rows usageSel productSel baseY compY ≠ []) :
    (build_map_table rows usageSel productSel baseY compY).map MapRow.sigungu =
      TARGET_SIGUNGU ∧
    (∀ mr ∈ build_map_table rows usageSel productSel baseY compY,
      mr.decAmt = mr.baseVal - mr.compVal ∧
      mr.baseVal = districtYearSum (mapFiltered rows usageSel productSel baseY compY)
          mr.sigungu baseY ∧
      mr.compVal = districtYearSum (mapFiltered rows usageSel productSel baseY compY)
          mr.sigungu compY) ∧
    ((∀ r ∈ mapFiltered rows usageSel productSel baseY compY, r.year ≠ baseY) →
      ∀ mr ∈ build_map_table rows usageSel productSel baseY compY, mr.baseVal = 0) ∧
    ((∀ r ∈ mapFiltered rows usageSel productSel baseY compY, r.year ≠ compY) →
      ∀ mr ∈ build_map_table rows usageSel productSel baseY compY, mr.compVal = 0) := by
  refine ⟨build_map_table_sigungu rows usageSel productSel baseY compY h, ?_, ?_, ?_⟩
  · intro mr hmr
    obtain ⟨hb, hc, ha, _⟩ := mem_build_map_table rows usageSel productSel baseY compY mr hmr
    exact ⟨ha, hb, hc⟩
  · intro habs mr hmr
    obtain ⟨hb, _, _, _⟩ := mem_build_map_table rows usageSel productSel baseY compY mr hmr
    rw [hb]
    exact districtYearSum_eq_zero _ _ _ habs
  · intro habs mr hmr
    obtain ⟨_, hc, _, _⟩ := mem_build_map_table rows usageSel productSel baseY compY mr hmr
    rw [hc]
    exact districtYearSum_eq_zero _ _ _ habs

/-- Witness for `map_pivot_decrease_and_order` on concrete 중구 data. -/
theorem map_pivot_decrease_and_order_w :
    (mapFiltered rowsW ["단독주택"] ["취사용"] 2015 2024 ≠ []) ∧
    (build_map_table rowsW ["단독주택"] ["취사용"] 2015 2024).map MapRow.sigungu =
      TARGET_SIGUNGU :=
  ⟨by decide,
   (map_pivot_decrease_and_order rowsW ["단독주택"] ["취사용"] 2015 2024 (by decide)).1⟩

/-- C5 (counterexample): the stored decrease rate is rounded to one
decimal.  With base value 3 and compare value 1, the 중구 row of the pivot stores
`감소율(%) = 66.7`, which is not `decrease_amount / base_value × 100 = 200/3`. -/
theorem map_pivot_rate_rounding_cex :
    (build_map_table rowsA ["단독주택"] ["취사용"] 2015 2024).head?.map MapRow.baseVal
      = some 3 ∧
    (build_map_table rowsA ["단독주택"] ["취사용"] 2015 2024).head?.map MapRow.decAmt
      = some 2 ∧
    (build_map_table rowsA ["단독주택"] ["취사용"] 2015 2024).head?.map MapRow.decRate
      = some (some (667/10)) ∧
    ((667 : ℚ)/10) ≠ ((2 : ℚ)/3) * 100 := by
  refine ⟨?_, ?_, ?_, by norm_num⟩
  · simp [build_map_table, mapFiltered, dfMapFiltered, districtYearSum, TARGET_SIGUNGU, rowsA]
  · simp [build_map_table, mapFiltered, dfMapFiltered, districtYearSum, TARGET_SIGUNGU, rowsA]
  · simp [build_map_table, mapFiltered, dfMapFiltered, districtYearSum, TARGET_SIGUNGU, rowsA]
    norm_num [round1, roundHalfEven]

/-- C5 (amended): for every district row of the pivot, the decrease rate
is undefined (NaN, not a crashing division) whenever the base value is 0, and
whenever the base value is positive it equals
`decrease_amount / base_value × 100` rounded to one decimal place. -/
theorem map_pivot_rate_rounded (rows : List RRow)
    (usageSel productSel : List String) (baseY compY : Nat) :
    ∀ mr ∈ build_map_table rows usageSel productSel baseY compY,
      (mr.baseVal = 0 → mr.decRate = none) ∧
      (0 < mr.baseVal →
        mr.decRate = some (round1 ((mr.decAmt : ℚ) / (mr.baseVal : ℚ) * 100))) := by
  intro mr hmr
  obtain ⟨_, _, ha, hr⟩ := mem_build_map_table rows usageSel productSel baseY compY mr hmr
  constructor
  · intro h0
    rw [hr, h0]
    simp
  · intro hpos
    rw [hr, if_pos hpos, ha]

/-- Witness for `map_pivot_rate_rounded` at the 중구 row of `rowsA`. -/
theorem map_pivot_rate_rounded_w :
    (⟨"중구", 3, 1, 2, some (667/10)⟩ : MapRow).decRate =
      some (round1 (((⟨"중구", 3, 1, 2, some (667/10)⟩ : MapRow).decAmt : ℚ) /
        ((⟨"중구", 3, 1, 2, some (667/10)⟩ : MapRow).baseVal : ℚ) * 100)) := by
  have hhead : (build_map_table rowsA ["단독주택"] ["취사용"] 2015 2024).head? =
      some ⟨"중구", 3, 1, 2, some (667/10)⟩ := by
    simp [build_map_table, mapFiltered, dfMapFiltered, districtYearSum, TARGET_SIGUNGU, rowsA]
    norm_num [round1, roundHalfEven]
  have hmem : (⟨"중구", 3, 1, 2, some (667/10)⟩ : MapRow) ∈
      build_map_table rowsA ["단독주택"] ["취사용"] 2015 2024 :=
    List.mem_of_mem_head? (by rw [hhead]; rfl)
  exact (map_pivot_rate_rounded rowsA ["단독주택"] ["취사용"] 2015 2024 _ hmem).2
    (by norm_num)

/-- C6: for every aggregation slice, the estimated consumption decline is
`max(hypothetical_all_gas_consumption − consumption_sum, 0)` and is never
negative: whenever it is defined its value is clamped non-negative. -/
theorem est_decline_clamped (rs : List URow) (v : ℚ)
    (h : estDecline rs = some v) :
    0 ≤ v ∧ ∃ a, avgPerRange rs = some a ∧
      v = max (a * (sumTotal rs : ℚ) - sumUsage rs) 0 := by
  unfold estDecline allGasUsage at h
  cases ha : avgPerRange rs with
  | none => rw [ha] at h; simp at h
  | some a =>
    rw [ha] at h
    have h2 : max (a * (sumTotal rs : ℚ) - sumUsage rs) 0 = v := by
      simpa using h
    refine ⟨?_, a, rfl, h2.symm⟩
    rw [← h2]
    exact le_max_right _ _

/-- Witness for `est_decline_clamped` on a slice where the un-clamped value
would be −50: the estimate is clamped to 0. -/
theorem est_decline_clamped_w :
    estDecline [negRow] = some 0 ∧ (0 : ℚ) ≤ 0 := by
  have hval : estDecline [negRow] = some 0 := by
    have h1 : sumRange [negRow] = 10 := by decide
    have h2 : sumTotal [negRow] = 5 := by decide
    simp only [estDecline, allGasUsage, avgPerRange, h1, h2]
    norm_num
    simp [sumUsage, negRow]
    norm_num
  exact ⟨hval, (est_decline_clamped [negRow] 0 hval).1⟩

/-- C7 (counterexample): the pivot does not always cover the full fixed
target-district set: when no record matches the base or compare year it is
empty instead. -/
theorem map_table_coverage_cex :
    map_table_at_call_site rowsOff ["단독주택"] ["취사용"] ["중구"] 2015 2024 = [] ∧
    (map_table_at_call_site rowsOff ["단독주택"] ["취사용"] ["중구"] 2015 2024).map
        MapRow.sigungu ≠ TARGET_SIGUNGU := by
  decide

/-- C7 (amended): the district decrease pivot is independent of the active
district-filter selection — two runs identical in all inputs except the
district filter set produce the same pivot — and whenever some record survives
the usage/product/target/year filters the pivot covers the full fixed
target-district set. -/
theorem map_table_district_filter_independent (dfRaw : List RRow)
    (usageSel productSel dsA dsB : List String) (baseY compY : Nat) :
    map_table_at_call_site dfRaw usageSel productSel dsA baseY compY =
      map_table_at_call_site dfRaw usageSel productSel dsB baseY compY ∧
    (mapFiltered dfRaw usageSel productSel baseY compY ≠ [] →
      (map_table_at_call_site dfRaw usageSel productSel dsA baseY compY).map
          MapRow.sigungu = TARGET_SIGUNGU) := by
  refine ⟨rfl, ?_⟩
  intro h
  exact build_map_table_sigungu dfRaw usageSel productSel baseY compY h

/-- Witness for `map_table_district_filter_independent` with two different
district selections. -/
theorem map_table_district_filter_independent_w :
    map_table_at_call_site rowsW ["단독주택"] ["취사용"] ["중구"] 2015 2024 =
      map_table_at_call_site rowsW ["단독주택"] ["취사용"] ["동구", "서구"] 2015 2024 ∧
    (map_table_at_call_site rowsW ["단독주택"] ["취사용"] ["중구"] 2015 2024).map
        MapRow.sigungu = TARGET_SIGUNGU :=
  ⟨(map_table_district_filter_independent rowsW ["단독주택"] ["취사용"]
      ["중구"] ["동구", "서구"] 2015 2024).1,
   (map_table_district_filter_independent rowsW ["단독주택"] ["취사용"]
      ["중구"] ["동구", "서구"] 2015 2024).2 (by decide)⟩

/-- C10: if, after the usage filter, the product filter and the
restriction to the fixed target districts, no record has a year equal to the
base year or the compare year, the district decrease pivot is a completely
empty table (zero rows). -/
theorem empty_years_empty_table (rows : List RRow)
    (usageSel productSel : List String) (baseY compY : Nat)
    (h : ∀ r ∈ dfMapFiltered rows usageSel productSel,
        r.year ≠ baseY ∧ r.year ≠ compY) :
    build_map_table rows usageSel productSel baseY compY = [] := by
  have hmf : mapFiltered rows usageSel productSel baseY compY = [] := by
    unfold mapFiltered
    apply List.filter_eq_nil_iff.mpr
    intro r hr
    obtain ⟨h1, h2⟩ := h r hr
    simp [h1, h2]
  rw [build_map_table, hmf]
  rfl

/-- Witness for `empty_years_empty_table`: a record in 2020 with base 2015
and compare 2024 yields the empty table. -/
theorem empty_years_empty_table_w :
    build_map_table rowsOff ["단독주택"] ["취사용"] 2015 2024 = [] :=
  empty_years_empty_table rowsOff ["단독주택"] ["취사용"] 2015 2024 (by decide)

/-- The best-field fold started from an accumulator `(some b, score b)`
returns the first score-maximiser of `b :: keys`. -/
theorem selectBest_go (feats : List (List (String × String))) :
    ∀ (keys : List String) (b : String),
      ∃ b2 pre post, b :: keys = pre ++ b2 :: post ∧
        keys.foldl
          (fun acc k =>
            if (keyScore feats k : Int) > acc.2 then (some k, (keyScore feats k : Int)) else acc)
          (some b, (keyScore feats b : Int)) = (some b2, (keyScore feats b2 : Int)) ∧
        (∀ m ∈ pre, keyScore feats m < keyScore feats b2) ∧
        (∀ k ∈ b :: keys, keyScore feats k ≤ keyScore feats b2) := by
  intro keys
  induction keys with
  | nil =>
    intro b
    exact ⟨b, [], [], rfl, rfl, by simp, by simp⟩
  | cons k keys ih =>
    intro b
    rw [List.foldl_cons]
    have hsnd : ((some b : Option String), (keyScore feats b : Int)).2 =
        (keyScore feats b : Int) := rfl
    by_cases hgt : (keyScore feats b : Int) < (keyScore feats k : Int)
    · rw [hsnd, if_pos hgt]
      obtain ⟨b2, pre, post, hsplit, hfold, hpre, hall⟩ := ih k
      have hbk : keyScore feats b < keyScore feats k := by exact_mod_cast hgt
      have hkb2 : keyScore feats k ≤ keyScore feats b2 := hall k (by simp)
      refine ⟨b2, b :: pre, post, ?_, hfold, ?_, ?_⟩
      · rw [List.cons_append, ← hsplit]
      · intro m hm
        rcases List.mem_cons.mp hm with rfl | hm
        · exact lt_of_lt_of_le hbk hkb2
        · exact hpre m hm
      · intro x hx
        rcases List.mem_cons.mp hx with rfl | hx
        · exact le_of_lt (lt_of_lt_of_le hbk hkb2)
        · exact hall x hx
    · rw [hsnd, if_neg hgt]
      have hkb : keyScore feats k ≤ keyScore feats b := by
        have := not_lt.mp hgt
        exact_mod_cast this
      obtain ⟨b2, pre, post, hsplit, hfold, hpre, hall⟩ := ih b
      cases pre with
      | nil =>
        simp only [List.nil_append] at hsplit
        obtain ⟨h1, h2⟩ : b = b2 ∧ keys = post := by
          injection hsplit with ha hb
          exact ⟨ha, hb⟩
        subst h1
        refine ⟨b, [], k :: keys, by simp, hfold, by simp, ?_⟩
        intro x hx
        rcases List.mem_cons.mp hx with rfl | hx
        · exact hall x (by simp)
        · rcases List.mem_cons.mp hx with rfl | hx
          · exact le_trans hkb (hall b (by simp))
          · exact hall x (List.mem_cons_of_mem _ hx)
      | cons q pre2 =>
        rw [List.cons_append] at hsplit
        obtain ⟨h1, h2⟩ : b = q ∧ keys = pre2 ++ b2 :: post := by
          injection hsplit with ha hb
          exact ⟨ha, hb⟩
        subst h1
        refine ⟨b2, b :: k :: pre2, post, ?_, hfold, ?_, ?_⟩
        · rw [h2]
          simp
        · intro m hm
          rcases List.mem_cons.mp hm with rfl | hm
          · exact hpre m (by simp)
          · rcases List.mem_cons.mp hm with rfl | hm
            · exact lt_of_le_of_lt hkb (hpre b (by simp))
            · exact hpre m (List.mem_cons_of_mem _ hm)
        · intro x hx
          rcases List.mem_cons.mp hx with rfl | hx
          · exact hall x (by simp)
          · rcases List.mem_cons.mp hx with rfl | hx
            · exact le_trans hkb (hall b (by simp))
            · exact hall x (List.mem_cons_of_mem _ hx)

/-- The first key always replaces the initial `(None, -1)` accumulator, since
scores are non-negative. -/
theorem selectBest_cons (feats : List (List (String × String))) (k0 : String)
    (ktail : List String) :
    selectBest feats (k0 :: ktail) =
      ktail.foldl
        (fun acc k =>
          if (keyScore feats k : Int) > acc.2 then (some k, (keyScore feats k : Int)) else acc)
        (some k0, (keyScore feats k0 : Int)) := by
  unfold selectBest
  rw [List.foldl_cons]
  have hsnd : ((none : Option String), (-1 : Int)).2 = (-1 : Int) := rfl
  have hlt : (-1 : Int) < (keyScore feats k0 : Int) :=
    lt_of_lt_of_le (by norm_num) (Int.natCast_nonneg _)
  rw [hsnd, if_pos hlt]

/-- C8: geometry join-key property selection.  The selected property key
is the one maximising the number of target districts appearing as a substring
of at least one feature value for that key, and on ties the first key in
declaration order wins: every key listed before the selected one scores
strictly lower, every key scores no higher.  The selection is a pure function
of the features, so re-running on the same inputs yields the same key. -/
theorem best_field_first_argmax (f0 : List (String × String))
    (rest : List (List (String × String))) (k0 : String) (ktail : List String)
    (hkeys : f0.map Prod.fst = k0 :: ktail) :
    ∃ b pre post, f0.map Prod.fst = pre ++ b :: post ∧
      bestField (f0 :: rest) = some b ∧
      (∀ m ∈ pre, keyScore (f0 :: rest) m < keyScore (f0 :: rest) b) ∧
      (∀ k ∈ f0.map Prod.fst, keyScore (f0 :: rest) k ≤ keyScore (f0 :: rest) b) ∧
      (∀ featsB, (f0 :: rest) = featsB → bestField (f0 :: rest) = bestField featsB) := by
  obtain ⟨b2, pre, post, hsplit, hfold, hpre, hall⟩ := selectBest_go (f0 :: rest) ktail k0
  refine ⟨b2, pre, post, by rw [hkeys, hsplit], ?_, hpre, ?_, ?_⟩
  · have hbf : bestField (f0 :: rest) = (selectBest (f0 :: rest) (f0.map Prod.fst)).1 := by
      simp only [bestField]
    rw [hbf, hkeys, selectBest_cons, hfold]
  · intro k hk
    rw [hkeys] at hk
    exact hall k hk
  · intro fB h
    rw [h]

/-- Witness for `best_field_first_argmax` on a two-key, two-feature input:
the `name` key (scoring 2) beats the `id` key (scoring 0). -/
theorem best_field_first_argmax_w :
    bestField featsW = some "name" ∧
    keyScore featsW "id" = 0 ∧ keyScore featsW "name" = 2 ∧
    (∃ b pre post,
      ([("id", "1"), ("name", "중구 ")] : List (String × String)).map Prod.fst =
        pre ++ b :: post ∧
      bestField ([("id", "1"), ("name", "중구 ")] :: [[("id", "2"), ("name", "동구")]]) =
        some b ∧
      (∀ m ∈ pre,
        keyScore ([("id", "1"), ("name", "중구 ")] :: [[("id", "2"), ("name", "동구")]]) m <
        keyScore ([("id", "1"), ("name", "중구 ")] :: [[("id", "2"), ("name", "동구")]]) b) ∧
      (∀ k ∈ ([("id", "1"), ("name", "중구 ")] : List (String × String)).map Prod.fst,
        keyScore ([("id", "1"), ("name", "중구 ")] :: [[("id", "2"), ("name", "동구")]]) k ≤
        keyScore ([("id", "1"), ("name", "중구 ")] :: [[("id", "2"), ("name", "동구")]]) b) ∧
      (∀ featsB, ([("id", "1"), ("name", "중구 ")] :: [[("id", "2"), ("name", "동구")]]) = featsB →
        bestField ([("id", "1"), ("name", "중구 ")] :: [[("id", "2"), ("name", "동구")]]) =
          bestField featsB)) :=
  ⟨by decide, by decide, by decide,
   best_field_first_argmax [("id", "1"), ("name", "중구 ")] [[("id", "2"), ("name", "동구")]]
     "id" ["name"] rfl⟩

/-- A decimal digit is not whitespace. -/
theorem digit_not_ws (c : Char) (h : c.isDigit = true) : c.isWhitespace = false := by
  by_contra hw
  have hw' : c.isWhitespace = true := by simpa using hw
  simp only [Char.isWhitespace, Bool.or_eq_true, decide_eq_true_eq] at hw'
  rcases hw' with ((h1 | h1) | h1) | h1 <;> subst h1 <;> exact absurd h (by decide)

/-- `dropWhile` is the identity when no element satisfies the predicate. -/
theorem dropWhile_eq_self_of_false {p : Char → Bool} :
    ∀ (cs : List Char), (∀ c ∈ cs, p c = false) → cs.dropWhile p = cs
  | [], _ => rfl
  | c :: cs, h => by
    have hc : p c = false := h c (by simp)
    simp [List.dropWhile_cons, hc]

/-- `strip` leaves an all-digit code unchanged. -/
theorem stripChars_of_digits (cs : List Char) (h : ∀ c ∈ cs, c.isDigit = true) :
    stripChars cs = cs := by
  have h1 : ∀ c ∈ cs, c.isWhitespace = false := fun c hc => digit_not_ws c (h c hc)
  have h3 : ∀ c ∈ cs.reverse, c.isWhitespace = false := by
    intro c hc
    exact h1 c (List.mem_reverse.mp hc)
  unfold stripChars
  rw [dropWhile_eq_self_of_false cs h1, dropWhile_eq_self_of_false _ h3, List.reverse_reverse]

/-- The multiply-by-ten fold computes the number denoted by a digit string. -/
theorem digitsToNat_eq_ofDigits (cs : List Char) :
    digitsToNat cs = Nat.ofDigits 10 ((cs.map (fun c => c.toNat - 48)).reverse) := by
  induction cs using List.reverseRecOn with
  | nil => simp [digitsToNat, Nat.ofDigits]
  | append_singleton cs c ih =>
    have hfold : digitsToNat (cs ++ [c]) = digitsToNat cs * 10 + (c.toNat - 48) := by
      unfold digitsToNat
      rw [List.foldl_append]
      rfl
    rw [hfold, ih, List.map_append, List.reverse_append]
    simp [Nat.ofDigits_cons]
    ring

/-- C9: for every valid 6-character all-digit period code, `parse_period`
returns the number denoted by the first 4 characters as the year and the
number denoted by characters 4..6 as the month, and parsing the
floating-point-stringified code `"201501.0"` yields the same pair as parsing
`"201501"`. -/
theorem period_parsing_spec :
    (∀ s : String, s.data.length = 6 → (∀ c ∈ s.data, c.isDigit = true) →
        parse_period s =
          (Nat.ofDigits 10 (((s.data.take 4).map (fun c => c.toNat - 48)).reverse),
           Nat.ofDigits 10 (((s.data.drop 4).map (fun c => c.toNat - 48)).reverse))) ∧
    parse_period "201501.0" = parse_period "201501" := by
  constructor
  · intro s hlen hd
    unfold parse_period
    rw [stripChars_of_digits _ hd]
    have h2 : (s.data.drop 4).take 2 = s.data.drop 4 := by
      have hl : (s.data.drop 4).length = 2 := by
        rw [List.length_drop, hlen]
      rw [← hl, List.take_length]
    rw [h2, digitsToNat_eq_ofDigits, digitsToNat_eq_ofDigits]
  · decide

/-- Witness for `period_parsing_spec` at the concrete code `"202412"`. -/
theorem period_parsing_spec_w :
    parse_period "202412" =
      (Nat.ofDigits 10 ((("202412".data.take 4).map (fun c => c.toNat - 48)).reverse),
       Nat.ofDigits 10 ((("202412".data.drop 4).map (fun c => c.toNat - 48)).reverse)) ∧
    parse_period "202412" = (2024, 12) ∧
    parse_period "201501.0" = parse_period "201501" :=
  ⟨period_parsing_spec.1 "202412" (by decide) (by decide), by decide,
   period_parsing_spec.2⟩

end GasApp
